import Mathlib

/-
Verification of the change-detection and alert-dispatch core of
`skills/vision-helpdesk/scripts/vision-watcher.py`.

The Python functions are shallowly embedded as executable Lean definitions:
dictionaries become association lists, the wall clock and every external
collaborator (the `pass` secret store, the ticket API, the Claude CLI, the
chat destinations, the filesystem) become explicit function parameters, and
exceptions become `Except` / `Option` results.  Field access through
`dict.get` with a default is rendered with `Option` fields plus `getD`.
-/

set_option autoImplicit false

namespace VisionWatcher

/-! ## Association-list dictionaries

Python `dict` values keyed by strings are modelled as association lists with
first-match lookup and in-place overwrite on assignment (one entry per key,
as in a Python dict). -/

def dget {κ α : Type} [DecidableEq κ] : List (κ × α) → κ → Option α
  | [], _ => none
  | (k', v) :: rest, k => if k' = k then some v else dget rest k

def dset {κ α : Type} [DecidableEq κ] : List (κ × α) → κ → α → List (κ × α)
  | [], k, v => [(k, v)]
  | (k', v') :: rest, k, v =>
    if k' = k then (k, v) :: rest else (k', v') :: dset rest k v

theorem dget_dset_same {κ α : Type} [DecidableEq κ] (m : List (κ × α)) (k : κ) (v : α) :
    dget (dset m k v) k = some v := by
  induction m with
  | nil => simp [dget, dset]
  | cons p rest ih =>
    obtain ⟨k', v'⟩ := p
    by_cases h : k' = k
    · simp [dget, dset, h]
    · simp [dget, dset, h, ih]

theorem dget_dset_other {κ α : Type} [DecidableEq κ] (m : List (κ × α)) (k k' : κ) (v : α)
    (h : k' ≠ k) : dget (dset m k' v) k = dget m k := by
  induction m with
  | nil => simp [dget, dset, h]
  | cons p rest ih =>
    obtain ⟨k₀, v₀⟩ := p
    by_cases h₀ : k₀ = k'
    · subst h₀
      simp only [dset, if_pos rfl]
      simp [dget, h]
    · by_cases h₁ : k₀ = k
      · subst h₁
        simp only [dset, if_neg h₀]
        simp [dget]
      · simp only [dset, if_neg h₀]
        simp [dget, h₁, ih]

/-! ## Data model

A `Ticket` is the slice of the upstream API's ticket record that the watcher
reads.  `ticket_id` is the result of Python's `str(ticket.get("ticket_id",
""))`, so the empty string stands for a missing identifier; `modify_date` is
`ticket.get("modify_date", "")`.  The remaining fields are optional raw dict
entries. -/

structure Ticket where
  ticket_id : String
  ticket_hash : Option String
  subject : Option String
  email : Option String
  company_name : Option String
  priority : Option String
  modify_date : String
  deriving Repr, DecidableEq

/-- Per-ticket memory stored under `state["seen_tickets"]`: a fresh record is
`{"modify_date": m, "first_seen": now}` and an update adds/overwrites
`modify_date` and `last_updated`. -/
structure SeenRecord where
  modify_date : String
  first_seen : String
  last_updated : Option String
  deriving Repr, DecidableEq

abbrev SeenMap := List (String × SeenRecord)

/-- The persisted watcher state `{seen_tickets, last_check}`. -/
structure WatcherState where
  seen_tickets : SeenMap
  last_check : Option String
  deriving Repr, DecidableEq

/-! ## Change detection (`check_tickets`, lines 432-473)

The upstream query result (`result.get("data", [])`) and the current wall
clock reading (`datetime.now().isoformat()`) are passed in explicitly.
`checkStep` is the body of the Python `for ticket in tickets` loop for one
ticket: tickets with a falsy identifier are dropped, unseen identifiers are
recorded as new, a seen identifier with a different stored `modify_date` is
recorded as updated (rewriting `modify_date` and `last_updated` while keeping
`first_seen`), and a matching revision is dropped as unchanged. -/

inductive Classification where
  | isNew
  | isUpdated
  | dropped
  deriving Repr, DecidableEq

def checkStep (now : String) (seen : SeenMap) (t : Ticket) :
    Classification × SeenMap :=
  if t.ticket_id = "" then (.dropped, seen)
  else
    match dget seen t.ticket_id with
    | none => (.isNew, dset seen t.ticket_id ⟨t.modify_date, now, none⟩)
    | some sr =>
      if sr.modify_date ≠ t.modify_date then
        (.isUpdated, dset seen t.ticket_id ⟨t.modify_date, sr.first_seen, some now⟩)
      else (.dropped, seen)

def checkLoop (now : String) (seen : SeenMap) :
    List Ticket → List Ticket × List Ticket × SeenMap
  | [] => ([], [], seen)
  | t :: rest =>
    let s := checkStep now seen t
    let r := checkLoop now s.2 rest
    match s.1 with
    | .isNew => (t :: r.1, r.2.1, r.2.2)
    | .isUpdated => (r.1, t :: r.2.1, r.2.2)
    | .dropped => r

/-- `check_tickets` with the upstream response and the clock made explicit.
Returns `(new_tickets, updated_tickets, mutated_state)`. -/
def check_tickets (state : WatcherState) (tickets : List Ticket) (now : String) :
    List Ticket × List Ticket × WatcherState :=
  let r := checkLoop now state.seen_tickets tickets
  (r.1, r.2.1, ⟨r.2.2, some now⟩)

/-- A sequence of detection cycles, each with its own upstream dataset and
clock reading, threading the mutated state. -/
def runCycles (st : WatcherState) : List (List Ticket × String) → WatcherState
  | [] => st
  | (ts, now) :: rest => runCycles (check_tickets st ts now).2.2 rest

/-! ### State-evolution lemmas -/

theorem checkLoop_seen (now : String) (ts : List Ticket) :
    ∀ seen : SeenMap,
      (checkLoop now seen ts).2.2 =
        ts.foldl (fun s t => (checkStep now s t).2) seen := by
  induction ts with
  | nil => intro seen; rfl
  | cons t rest ih =>
    intro seen
    unfold checkLoop
    cases hs : (checkStep now seen t).1 <;>
      simp only [hs, List.foldl_cons, ← ih]

/-- One loop step leaves every other key of the seen map untouched. -/
theorem checkStep_frame (now : String) (seen : SeenMap) (t : Ticket)
    (id : String) (h : t.ticket_id ≠ id) :
    dget (checkStep now seen t).2 id = dget seen id := by
  unfold checkStep
  by_cases h0 : t.ticket_id = ""
  · rw [if_pos h0]
  · rw [if_neg h0]
    cases hg : dget seen t.ticket_id with
    | none => exact dget_dset_other _ _ _ _ h
    | some sr =>
      by_cases hm : sr.modify_date ≠ t.modify_date
      · simp only [if_pos hm]
        exact dget_dset_other _ _ _ _ h
      · simp only [if_neg hm]

/-- After one loop step for ticket `t` (with a truthy identifier), the stored
record for `t.ticket_id` carries exactly `t.modify_date`. -/
theorem checkStep_self (now : String) (seen : SeenMap) (t : Ticket)
    (h0 : t.ticket_id ≠ "") :
    ∃ r, dget (checkStep now seen t).2 t.ticket_id = some r ∧
      r.modify_date = t.modify_date := by
  unfold checkStep
  rw [if_neg h0]
  cases hg : dget seen t.ticket_id with
  | none => exact ⟨_, dget_dset_same _ _ _, rfl⟩
  | some sr =>
    by_cases hm : sr.modify_date ≠ t.modify_date
    · simp only [if_pos hm]
      exact ⟨_, dget_dset_same _ _ _, rfl⟩
    · simp only [if_neg hm]
      push_neg at hm
      exact ⟨sr, hg, hm⟩

/-- One loop step never changes the `first_seen` field of a record that is
already present. -/
theorem checkStep_first_seen (now : String) (seen : SeenMap) (t : Ticket)
    (id : String) (r : SeenRecord) (h : dget seen id = some r) :
    ∃ r', dget (checkStep now seen t).2 id = some r' ∧
      r'.first_seen = r.first_seen := by
  by_cases hid : t.ticket_id = id
  · subst hid
    by_cases h0 : t.ticket_id = ""
    · simp only [checkStep, h0, if_true]
      exact ⟨r, h0 ▸ h, rfl⟩
    · simp only [checkStep, h0, if_false, h]
      by_cases hm : r.modify_date ≠ t.modify_date
      · simp only [if_pos hm]
        exact ⟨_, dget_dset_same _ _ _, rfl⟩
      · simp only [if_neg hm]
        exact ⟨r, h, rfl⟩
  · rw [checkStep_frame now seen t id hid]
    exact ⟨r, h, rfl⟩

/-- The last element of `ts` carrying the identifier `id`, i.e. the most
recent occurrence of that ticket in the upstream response. -/
def lastWith (ts : List Ticket) (id : String) : Option Ticket :=
  ts.reverse.find? (fun t => t.ticket_id == id)

theorem lastWith_nil (id : String) : lastWith [] id = none := rfl

theorem lastWith_cons (t : Ticket) (ts : List Ticket) (id : String) :
    lastWith (t :: ts) id =
      match lastWith ts id with
      | some u => some u
      | none => if t.ticket_id = id then some t else none := by
  unfold lastWith
  rw [List.reverse_cons, List.find?_append]
  cases h : List.find? (fun u => u.ticket_id == id) ts.reverse with
  | none =>
    cases hb : t.ticket_id == id with
    | true =>
      have he : t.ticket_id = id := by exact eq_of_beq hb
      simp [Option.orElse, h, List.find?, hb, he]
    | false =>
      have he : t.ticket_id ≠ id := by
        intro hc
        rw [hc] at hb
        simp at hb
      simp [Option.orElse, h, List.find?, hb, he]
  | some u => simp [Option.orElse, h]

theorem lastWith_append (l₁ l₂ : List Ticket) (id : String) :
    lastWith (l₁ ++ l₂) id =
      match lastWith l₂ id with
      | some u => some u
      | none => lastWith l₁ id := by
  unfold lastWith
  rw [List.reverse_append, List.find?_append]
  cases h : List.find? (fun u => u.ticket_id == id) l₂.reverse with
  | none => simp [Option.orElse, h]
  | some u => simp [Option.orElse, h]

/-- Frame lemma: an identifier that occurs nowhere in the upstream response
has its stored record left untouched by the detection loop. -/
theorem checkLoop_frame (now : String) (ts : List Ticket) :
    ∀ (seen : SeenMap) (id : String), lastWith ts id = none →
      dget (checkLoop now seen ts).2.2 id = dget seen id := by
  induction ts with
  | nil => intro seen id _; rfl
  | cons t rest ih =>
    intro seen id h
    rw [lastWith_cons] at h
    cases hrest : lastWith rest id with
    | some u => rw [hrest] at h; simp at h
    | none =>
      rw [hrest] at h
      simp only [hrest] at h
      have hne : t.ticket_id ≠ id := by
        intro he
        rw [if_pos he] at h
        exact Option.noConfusion h
      rw [checkLoop_seen, List.foldl_cons, ← checkLoop_seen, ih _ id hrest]
      exact checkStep_frame now seen t id hne

/-- After the detection loop, the stored revision for an identifier equals
the `modify_date` of the most recent occurrence of that identifier in the
upstream response (last write wins). -/
theorem checkLoop_last_write (now : String) (ts : List Ticket) :
    ∀ (seen : SeenMap) (id : String) (t : Ticket), id ≠ "" →
      lastWith ts id = some t →
      ∃ r, dget (checkLoop now seen ts).2.2 id = some r ∧
        r.modify_date = t.modify_date := by
  induction ts with
  | nil => intro seen id t _ h; exact absurd h (by simp [lastWith_nil])
  | cons u rest ih =>
    intro seen id t hid h
    rw [lastWith_cons] at h
    rw [checkLoop_seen, List.foldl_cons, ← checkLoop_seen]
    cases hrest : lastWith rest id with
    | some w =>
      rw [hrest] at h
      simp only [Option.some.injEq] at h
      subst h
      exact ih _ id w hid hrest
    | none =>
      rw [hrest] at h
      simp only [hrest] at h
      by_cases he : u.ticket_id = id
      · rw [if_pos he] at h
        simp only [Option.some.injEq] at h
        subst h
        rw [checkLoop_frame now rest _ id hrest]
        have hs := checkStep_self now seen u (by rw [he]; exact hid)
        rwa [he] at hs
      · rw [if_neg he] at h
        exact Option.noConfusion h

/-- The `first_seen` timestamp of an already-recorded identifier survives the
whole detection loop unchanged. -/
theorem checkLoop_first_seen (now : String) (ts : List Ticket) :
    ∀ (seen : SeenMap) (id : String) (r : SeenRecord), dget seen id = some r →
      ∃ r', dget (checkLoop now seen ts).2.2 id = some r' ∧
        r'.first_seen = r.first_seen := by
  induction ts with
  | nil => intro seen id r h; exact ⟨r, h, rfl⟩
  | cons t rest ih =>
    intro seen id r h
    rw [checkLoop_seen, List.foldl_cons, ← checkLoop_seen]
    obtain ⟨r₁, h₁, hfs₁⟩ := checkStep_first_seen now seen t id r h
    obtain ⟨r₂, h₂, hfs₂⟩ := ih _ id r₁ h₁
    exact ⟨r₂, h₂, hfs₂.trans hfs₁⟩

theorem runCycles_first_seen (cycles : List (List Ticket × String)) :
    ∀ (st : WatcherState) (id : String) (r : SeenRecord),
      dget st.seen_tickets id = some r →
      ∃ r', dget (runCycles st cycles).seen_tickets id = some r' ∧
        r'.first_seen = r.first_seen := by
  induction cycles with
  | nil => intro st id r h; exact ⟨r, h, rfl⟩
  | cons c rest ih =>
    intro st id r h
    obtain ⟨ts, now⟩ := c
    obtain ⟨r₁, h₁, hf₁⟩ := checkLoop_first_seen now ts st.seen_tickets id r h
    obtain ⟨r₂, h₂, hf₂⟩ := ih (check_tickets st ts now).2.2 id r₁ h₁
    exact ⟨r₂, h₂, hf₂.trans hf₁⟩

theorem runCycles_frame (cycles : List (List Ticket × String)) :
    ∀ (st : WatcherState) (id : String),
      lastWith (List.flatten (cycles.map Prod.fst)) id = none →
      dget (runCycles st cycles).seen_tickets id = dget st.seen_tickets id := by
  induction cycles with
  | nil => intro st id _; rfl
  | cons c rest ih =>
    intro st id h
    obtain ⟨ts, now⟩ := c
    have hj : List.flatten (((ts, now) :: rest).map Prod.fst) =
        ts ++ List.flatten (rest.map Prod.fst) := rfl
    rw [hj, lastWith_append] at h
    cases hJ : lastWith (List.flatten (rest.map Prod.fst)) id with
    | some u => rw [hJ] at h; simp at h
    | none =>
      rw [hJ] at h
      simp only [hJ] at h
      have : dget (runCycles (check_tickets st ts now).2.2 rest).seen_tickets id =
          dget (check_tickets st ts now).2.2.seen_tickets id := ih _ id hJ
      rw [show runCycles st ((ts, now) :: rest) =
        runCycles (check_tickets st ts now).2.2 rest from rfl, this]
      exact checkLoop_frame now ts st.seen_tickets id h

theorem runCycles_last_write (cycles : List (List Ticket × String)) :
    ∀ (st : WatcherState) (id : String) (t : Ticket), id ≠ "" →
      lastWith (List.flatten (cycles.map Prod.fst)) id = some t →
      ∃ r, dget (runCycles st cycles).seen_tickets id = some r ∧
        r.modify_date = t.modify_date := by
  induction cycles with
  | nil =>
    intro st id t _ h
    exact absurd h (by simp [lastWith_nil])
  | cons c rest ih =>
    intro st id t hid h
    obtain ⟨ts, now⟩ := c
    have hj : List.flatten (((ts, now) :: rest).map Prod.fst) =
        ts ++ List.flatten (rest.map Prod.fst) := rfl
    rw [hj, lastWith_append] at h
    rw [show runCycles st ((ts, now) :: rest) =
      runCycles (check_tickets st ts now).2.2 rest from rfl]
    cases hJ : lastWith (List.flatten (rest.map Prod.fst)) id with
    | some w =>
      rw [hJ] at h
      simp only [Option.some.injEq] at h
      subst h
      exact ih _ id w hid hJ
    | none =>
      rw [hJ] at h
      simp only [hJ] at h
      rw [runCycles_frame rest _ id hJ]
      exact checkLoop_last_write now ts st.seen_tickets id t hid h

/-! ### C1: monotone replacement of the revision marker -/

/-- C1, counterexample to the claim as stated: with ticket `1` recorded at
revision `"150"`, an upstream response carrying the out-of-order revision
`"100"` overwrites the stored marker with `"100"`, i.e. the marker IS rolled
back to an earlier value (last-write-wins, not monotone). -/
theorem revision_rollback_cx :
    dget (check_tickets ⟨[("1", ⟨"150", "t0", none⟩)], none⟩
        [⟨"1", none, none, none, none, none, "100"⟩] "t1").2.2.seen_tickets "1" =
      some ⟨"100", "t0", some "t1"⟩ ∧ ("100" : String) < "150" := by
  constructor
  · rfl
  · rw [String.lt_iff_toList_lt]
    decide

/-- C1 (amended): for every recorded-or-new ticket identifier, the stored
revision marker is always replaced by the received one (last write wins, even
when the received revision is earlier), so after any number of cycles the
stored revision equals the revision of the most recent upstream response
occurrence that included that ticket. -/
theorem revision_last_write_wins (st : WatcherState)
    (cycles : List (List Ticket × String)) (id : String) (t : Ticket)
    (hid : id ≠ "")
    (h : lastWith (List.flatten (cycles.map Prod.fst)) id = some t) :
    ∃ r, dget (runCycles st cycles).seen_tickets id = some r ∧
      r.modify_date = t.modify_date :=
  runCycles_last_write cycles st id t hid h

/-- Witness for `revision_last_write_wins`: two cycles deliver ticket `1`
first at revision `"150"`, then out of order at `"100"`; the hypotheses hold
and the stored marker ends at `"100"`, the most recent response's revision. -/
theorem revision_last_write_wins_witness :
    (("1" : String) ≠ "" ∧
      lastWith (List.flatten (([([⟨"1", none, none, none, none, none, "150"⟩], "n1"),
        ([⟨"1", none, none, none, none, none, "100"⟩], "n2")].map Prod.fst)))
        "1" = some ⟨"1", none, none, none, none, none, "100"⟩) ∧
    ∃ r, dget (runCycles ⟨[], none⟩
        [([⟨"1", none, none, none, none, none, "150"⟩], "n1"),
         ([⟨"1", none, none, none, none, none, "100"⟩], "n2")]).seen_tickets
        "1" = some r ∧
      r.modify_date = (⟨"1", none, none, none, none, none,
        "100"⟩ : Ticket).modify_date :=
  ⟨⟨by decide, by decide⟩,
    revision_last_write_wins ⟨[], none⟩
      [([⟨"1", none, none, none, none, none, "150"⟩], "n1"),
       ([⟨"1", none, none, none, none, none, "100"⟩], "n2")]
      "1" ⟨"1", none, none, none, none, none, "100"⟩ (by decide) (by decide)⟩

/-! ### C2: idempotence of detection -/

theorem lastWith_eq_none (ts : List Ticket) (id : String)
    (h : ∀ t ∈ ts, t.ticket_id ≠ id) : lastWith ts id = none := by
  unfold lastWith
  rw [List.find?_eq_none]
  intro u hu
  simp only [beq_iff_eq]
  exact h u (List.mem_reverse.mp hu)

theorem lastWith_self_of_nodup (ts : List Ticket)
    (h : (ts.map Ticket.ticket_id).Nodup) (t : Ticket) (ht : t ∈ ts) :
    lastWith ts t.ticket_id = some t := by
  induction ts with
  | nil => cases ht
  | cons u rest ih =>
    rw [lastWith_cons]
    rw [List.map_cons, List.nodup_cons] at h
    obtain ⟨hu, hrest⟩ := h
    rcases List.mem_cons.mp ht with he | hmem
    · subst he
      have hnone : lastWith rest t.ticket_id = none := by
        apply lastWith_eq_none
        intro w hw hc
        exact hu (hc ▸ List.mem_map_of_mem Ticket.ticket_id hw)
      rw [hnone]
      simp
    · rw [ih hrest hmem]

/-- If every incoming ticket's identifier is already stored at exactly the
incoming revision, the detection loop classifies nothing and leaves the map
unchanged. -/
theorem checkLoop_stable (now : String) (ts : List Ticket) :
    ∀ seen : SeenMap,
      (∀ t ∈ ts, t.ticket_id ≠ "" →
        ∃ r, dget seen t.ticket_id = some r ∧ r.modify_date = t.modify_date) →
      checkLoop now seen ts = ([], [], seen) := by
  induction ts with
  | nil => intro seen _; rfl
  | cons t rest ih =>
    intro seen h
    have hstep : checkStep now seen t = (.dropped, seen) := by
      by_cases h0 : t.ticket_id = ""
      · simp [checkStep, h0]
      · obtain ⟨r, hg, hm⟩ := h t (List.mem_cons_self t rest) h0
        simp [checkStep, h0, hg, hm]
    unfold checkLoop
    simp only [hstep]
    exact ih seen (fun u hu => h u (List.mem_cons_of_mem t hu))

/-- C2, counterexample to the claim as stated: an upstream dataset in which
the same ticket identifier occurs twice with two different revision markers
makes the second detection run over the identical dataset report the ticket
as updated again, so the second run is not empty. -/
theorem detection_idempotent_cx :
    (check_tickets (check_tickets ⟨[], none⟩
        [⟨"1", none, none, none, none, none, "100"⟩,
         ⟨"1", none, none, none, none, none, "200"⟩] "n1").2.2
      [⟨"1", none, none, none, none, none, "100"⟩,
       ⟨"1", none, none, none, none, none, "200"⟩] "n2").2.1 ≠ [] := by
  decide

/-- C2 (amended): for every state and every upstream dataset in which no
ticket identifier occurs twice, a second detection run over the identical
dataset, starting from the state mutated by the first run, returns an empty
new-tickets list and an empty updated-tickets list. -/
theorem detection_idempotent_nodup (st : WatcherState) (ts : List Ticket)
    (n1 n2 : String) (h : (ts.map Ticket.ticket_id).Nodup) :
    (check_tickets (check_tickets st ts n1).2.2 ts n2).1 = [] ∧
    (check_tickets (check_tickets st ts n1).2.2 ts n2).2.1 = [] := by
  have hstable : ∀ t ∈ ts, t.ticket_id ≠ "" →
      ∃ r, dget (check_tickets st ts n1).2.2.seen_tickets t.ticket_id = some r ∧
        r.modify_date = t.modify_date := by
    intro t ht h0
    exact checkLoop_last_write n1 ts st.seen_tickets t.ticket_id t h0
      (lastWith_self_of_nodup ts h t ht)
  have hrun := checkLoop_stable n2 ts _ hstable
  constructor
  · show (checkLoop n2 (check_tickets st ts n1).2.2.seen_tickets ts).1 = []
    rw [hrun]
  · show (checkLoop n2 (check_tickets st ts n1).2.2.seen_tickets ts).2.1 = []
    rw [hrun]

/-- Witness for `detection_idempotent_nodup`: two distinct tickets, empty
initial state; the second run reports nothing. -/
theorem detection_idempotent_nodup_witness :
    (([⟨"1", none, none, none, none, none, "100"⟩,
       ⟨"2", none, none, none, none, none, "200"⟩] : List Ticket).map
        Ticket.ticket_id).Nodup ∧
    ((check_tickets (check_tickets ⟨[], none⟩
        [⟨"1", none, none, none, none, none, "100"⟩,
         ⟨"2", none, none, none, none, none, "200"⟩] "n1").2.2
      [⟨"1", none, none, none, none, none, "100"⟩,
       ⟨"2", none, none, none, none, none, "200"⟩] "n2").1 = [] ∧
    (check_tickets (check_tickets ⟨[], none⟩
        [⟨"1", none, none, none, none, none, "100"⟩,
         ⟨"2", none, none, none, none, none, "200"⟩] "n1").2.2
      [⟨"1", none, none, none, none, none, "100"⟩,
       ⟨"2", none, none, none, none, none, "200"⟩] "n2").2.1 = []) :=
  ⟨by decide,
    detection_idempotent_nodup ⟨[], none⟩
      [⟨"1", none, none, none, none, none, "100"⟩,
       ⟨"2", none, none, none, none, none, "200"⟩] "n1" "n2" (by decide)⟩

/-! ### C10: frame effect of an update on the seen record -/

/-- C10: an update rewrites only `modify_date` and `last_updated` of a seen
record; the `first_seen` timestamp recorded at first observation survives
every later detection run unchanged, and records of tickets absent from the
upstream response are not modified at all. -/
theorem seen_record_frame (st : WatcherState) (ts : List Ticket) (now : String) :
    (∀ id r, dget st.seen_tickets id = some r →
      ∃ r', dget (check_tickets st ts now).2.2.seen_tickets id = some r' ∧
        r'.first_seen = r.first_seen) ∧
    (∀ id, lastWith ts id = none →
      dget (check_tickets st ts now).2.2.seen_tickets id = dget st.seen_tickets id) ∧
    (∀ (cycles : List (List Ticket × String)) id r,
      dget st.seen_tickets id = some r →
      ∃ r', dget (runCycles st cycles).seen_tickets id = some r' ∧
        r'.first_seen = r.first_seen) :=
  ⟨fun id r h => checkLoop_first_seen now ts st.seen_tickets id r h,
   fun id h => checkLoop_frame now ts st.seen_tickets id h,
   fun cycles id r h => runCycles_first_seen cycles st id r h⟩

/-- Witness for `seen_record_frame`: a state with tickets `1` and `2`
recorded; the response updates ticket `1` only. The hypotheses are discharged
at concrete records. -/
theorem seen_record_frame_witness :
    (dget (⟨[("1", ⟨"100", "f1", none⟩), ("2", ⟨"300", "f2", none⟩)], none⟩ :
        WatcherState).seen_tickets "1" = some ⟨"100", "f1", none⟩ ∧
      lastWith [⟨"1", none, none, none, none, none, "200"⟩] "2" = none) ∧
    ((∃ r', dget (check_tickets
        ⟨[("1", ⟨"100", "f1", none⟩), ("2", ⟨"300", "f2", none⟩)], none⟩
        [⟨"1", none, none, none, none, none, "200"⟩] "t9").2.2.seen_tickets
        "1" = some r' ∧ r'.first_seen = (⟨"100", "f1", none⟩ : SeenRecord).first_seen) ∧
     dget (check_tickets
        ⟨[("1", ⟨"100", "f1", none⟩), ("2", ⟨"300", "f2", none⟩)], none⟩
        [⟨"1", none, none, none, none, none, "200"⟩] "t9").2.2.seen_tickets
        "2" = dget (⟨[("1", ⟨"100", "f1", none⟩), ("2", ⟨"300", "f2", none⟩)],
          none⟩ : WatcherState).seen_tickets "2") :=
  ⟨⟨by decide, by decide⟩,
    (seen_record_frame
      ⟨[("1", ⟨"100", "f1", none⟩), ("2", ⟨"300", "f2", none⟩)], none⟩
      [⟨"1", none, none, none, none, none, "200"⟩] "t9").1 "1"
      ⟨"100", "f1", none⟩ (by decide),
    (seen_record_frame
      ⟨[("1", ⟨"100", "f1", none⟩), ("2", ⟨"300", "f2", none⟩)], none⟩
      [⟨"1", none, none, none, none, none, "200"⟩] "t9").2.1 "2" (by decide)⟩

/-! ## Substring containment

Python's `pat in s` substring test, written out on character lists. -/

def startsWithChars : List Char → List Char → Bool
  | [], _ => true
  | _ :: _, [] => false
  | p :: ps, c :: cs => p == c && startsWithChars ps cs

def hasSubChars (pat : List Char) : List Char → Bool
  | [] => pat.isEmpty
  | c :: cs => startsWithChars pat (c :: cs) || hasSubChars pat cs

/-- Python `pat in s` on strings. -/
def containsSub (s pat : String) : Bool := hasSubChars pat.toList s.toList

/-- Python `any(kw in s for kw in kws)`. -/
def anyKw (kws : List String) (s : String) : Bool :=
  kws.any (fun kw => containsSub s kw)

theorem startsWithChars_append (pat a b : List Char)
    (h : startsWithChars pat a = true) : startsWithChars pat (a ++ b) = true := by
  induction pat generalizing a with
  | nil => rfl
  | cons p ps ih =>
    cases a with
    | nil => exact absurd h (by simp [startsWithChars])
    | cons c cs =>
      simp only [startsWithChars, Bool.and_eq_true] at h
      simp only [List.cons_append, startsWithChars, Bool.and_eq_true]
      exact ⟨h.1, ih cs h.2⟩

theorem hasSubChars_nil (s : List Char) : hasSubChars [] s = true := by
  induction s with
  | nil => rfl
  | cons c cs ih => simp [hasSubChars, startsWithChars]

theorem hasSubChars_append_left (pat a b : List Char)
    (h : hasSubChars pat a = true) : hasSubChars pat (a ++ b) = true := by
  induction a with
  | nil =>
    have : pat = [] := by
      cases pat with
      | nil => rfl
      | cons p ps => exact absurd h (by simp [hasSubChars, List.isEmpty])
    subst this
    exact hasSubChars_nil b
  | cons c cs ih =>
    simp only [hasSubChars, Bool.or_eq_true] at h
    simp only [List.cons_append, hasSubChars, Bool.or_eq_true]
    rcases h with h | h
    · exact Or.inl (by simpa using startsWithChars_append pat (c :: cs) b h)
    · exact Or.inr (ih h)

theorem hasSubChars_append_right (pat a b : List Char)
    (h : hasSubChars pat b = true) : hasSubChars pat (a ++ b) = true := by
  induction a with
  | nil => exact h
  | cons c cs ih =>
    simp only [List.cons_append, hasSubChars, Bool.or_eq_true]
    exact Or.inr ih

theorem string_toList_append (a b : String) :
    (a ++ b).toList = a.toList ++ b.toList := rfl

theorem containsSub_append_left (a b pat : String)
    (h : containsSub a pat = true) : containsSub (a ++ b) pat = true := by
  unfold containsSub at h ⊢
  rw [string_toList_append]
  exact hasSubChars_append_left _ _ _ h

theorem containsSub_append_right (a b pat : String)
    (h : containsSub b pat = true) : containsSub (a ++ b) pat = true := by
  unfold containsSub at h ⊢
  rw [string_toList_append]
  exact hasSubChars_append_right _ _ _ h

/-! ## Python string primitives

`str.lower`, `str.strip` and the regex substitutions of the source are
rendered at character level (ASCII case folding and the ASCII part of
Python's `\s` class; the source only ever matches ASCII keywords). -/

/-- Python `s.lower()` (ASCII folding). -/
def pyLower (s : String) : String := String.mk (s.toList.map Char.toLower)

/-- The ASCII characters of Python's `\s` class (space, tab, newline,
carriage return, vertical tab, form feed). -/
def isPyWs (c : Char) : Bool :=
  c == ' ' || c == '\t' || c == '\n' || c == '\r' || c == '\x0b' || c == '\x0c'

/-- Python `s.strip()` on a character list. -/
def pyStripChars (l : List Char) : List Char :=
  ((l.dropWhile isPyWs).reverse.dropWhile isPyWs).reverse

/-- Python `s.strip()`. -/
def pyStrip (s : String) : String := String.mk (pyStripChars s.toList)

/-! ## Deterministic fallback triage (`generate_fallback_triage`, lines 213-261)

The Python function takes `(ticket, subject, content, reason="")` but never
reads `ticket`, so the embedding takes the three strings.  The keyword lists
and the returned strings are copied verbatim (apostrophes written `\x27`).
Each Python local assignment becomes a named definition. -/

def spam_signals : List String :=
  ["unsubscribe", "click here", "act now", "limited time", "invoice attached",
   "get funds", "eligible invoices", "marketing", "newsletter"]

def auto_signals : List String :=
  ["automatic reply", "auto-reply", "autoreply", "i am currently out",
   "i will be out of the office", "i\x27m currently out",
   "thank you for your email", "i will respond when i return"]

def request_signals : List String :=
  ["please", "need", "want", "can you", "could you", "forward", "change",
   "update"]

def billing_signals : List String :=
  ["invoice", "payment", "billing", "charge", "receipt", "account balance"]

def urgent_signals : List String :=
  ["down", "not working", "emergency", "urgent", "asap", "can\x27t make calls",
   "no dial tone"]

/-- `combined = subject.lower() + " " + content.lower()[:500]`. -/
def fallbackCombined (subject content : String) : String :=
  pyLower subject ++ " " ++ (pyLower content).take 500

def fallbackUrgency (combined : String) : String :=
  if anyKw urgent_signals combined then "🔴 High"
  else if anyKw ["forwarding", "routing", "voicemail", "greeting"] combined then
    "🟡 Medium"
  else "🟡 Medium"

def fallbackCategory (combined : String) : String :=
  if anyKw ["forward", "routing", "route", "transfer", "redirect"] combined then
    "routing"
  else if anyKw ["voicemail", "vm", "greeting", "message"] combined then
    "voicemail"
  else if anyKw ["phone", "handset", "device", "hardware"] combined then
    "hardware"
  else "other"

def reasonNote (reason : String) : String :=
  if reason ≠ "" then " (fallback: " ++ reason ++ ")" else ""

def generate_fallback_triage (subject content reason : String) : String :=
  if anyKw spam_signals (fallbackCombined subject content) then
    "**Summary:** Likely spam or marketing email\n**Category:** spam\n**Urgency:** ⚪ None\n**Action:** Ignore - spam/marketing"
  else if anyKw auto_signals (fallbackCombined subject content)
      && !(anyKw request_signals (fallbackCombined subject content)) then
    "**Summary:** Auto-reply/OOO message\n**Category:** other\n**Urgency:** ⚪ None\n**Action:** Close - auto-reply"
  else if anyKw billing_signals (fallbackCombined subject content) then
    "**Summary:** " ++ subject.take 60 ++
      "\n**Category:** billing\n**Urgency:** 🟢 Low\n**Action:** Forward to accounting"
  else
    "**Summary:** " ++ subject.take 60 ++
      "\n**Category:** " ++ fallbackCategory (fallbackCombined subject content) ++
      "\n**Urgency:** " ++ fallbackUrgency (fallbackCombined subject content) ++
      "\n**Action:** Review ticket" ++ reasonNote reason

/-- C3: the deterministic fallback verdict generator is a total function and,
for every ticket input (any subject, body content and failure reason,
including empty ones), its output carries all four verdict fields: summary,
category, urgency and action. -/
theorem fallback_triage_total (subject content reason : String) :
    containsSub (generate_fallback_triage subject content reason) "**Summary:**" = true ∧
    containsSub (generate_fallback_triage subject content reason) "**Category:**" = true ∧
    containsSub (generate_fallback_triage subject content reason) "**Urgency:**" = true ∧
    containsSub (generate_fallback_triage subject content reason) "**Action:**" = true := by
  unfold generate_fallback_triage
  split
  · exact ⟨by decide, by decide, by decide, by decide⟩
  · split
    · exact ⟨by decide, by decide, by decide, by decide⟩
    · split
      · refine ⟨?_, ?_, ?_, ?_⟩
        · exact containsSub_append_left _ _ _
            (containsSub_append_left _ _ _ (by decide))
        · exact containsSub_append_right _ _ _ (by decide)
        · exact containsSub_append_right _ _ _ (by decide)
        · exact containsSub_append_right _ _ _ (by decide)
      · refine ⟨?_, ?_, ?_, ?_⟩
        · exact containsSub_append_left _ _ _ (containsSub_append_left _ _ _
            (containsSub_append_left _ _ _ (containsSub_append_left _ _ _
              (containsSub_append_left _ _ _ (containsSub_append_left _ _ _
                (containsSub_append_left _ _ _ (by decide)))))))
        · exact containsSub_append_left _ _ _ (containsSub_append_left _ _ _
            (containsSub_append_left _ _ _ (containsSub_append_left _ _ _
              (containsSub_append_left _ _ _
                (containsSub_append_right _ _ _ (by decide))))))
        · exact containsSub_append_left _ _ _ (containsSub_append_left _ _ _
            (containsSub_append_left _ _ _
              (containsSub_append_right _ _ _ (by decide))))
        · exact containsSub_append_left _ _ _
            (containsSub_append_right _ _ _ (by decide))

/-! ## Skip filter (`should_skip_ticket`, lines 358-386)

The Python also computes a lowered `company` but never reads it, so it is
omitted.  `(ticket.get("subject") or "")` maps missing and `None` fields to
`""`, which `Option.getD ""` renders. -/

def billing_keywords : List String :=
  ["invoice", "payment", "funding", "funds", "billing",
   "receipt", "statement", "balance due", "pay now",
   "eligible invoices", "get funds", "received your invoice"]

def spam_domains : List String :=
  ["marketing", "newsletter", "promo", "noreply@"]

def system_keywords : List String :=
  ["automatic notification", "do not reply", "system alert"]

def should_skip_ticket (t : Ticket) : Bool × String :=
  if anyKw billing_keywords (pyLower (t.subject.getD "")) then
    (true, "billing/invoice")
  else if anyKw spam_domains (pyLower (t.email.getD "")) then
    (true, "spam sender")
  else if anyKw system_keywords (pyLower (t.subject.getD "")) then
    (true, "system notification")
  else (false, "")

/-! ## Verdict generation (`triage_with_claude`, lines 157-210)

The regex `re.sub(r'<[^>]+>', ' ', content)` is rendered by `stripTags`: at
each `<` that is followed by at least one non-`>` character and then a `>`,
the whole tag is replaced by one space; any other character is kept.  The
Claude CLI subprocess is an explicit parameter returning exit code and
stdout, a timeout, or an exception message. -/

def skipToGt : List Char → Option (List Char)
  | [] => none
  | c :: cs => if c = '>' then some cs else skipToGt cs

def matchTag : List Char → Option (List Char)
  | [] => none
  | c :: cs => if c = '>' then none else skipToGt cs

theorem skipToGt_length : ∀ (cs rest : List Char),
    skipToGt cs = some rest → rest.length < cs.length := by
  intro cs
  induction cs with
  | nil => intro rest h; exact absurd h (by simp [skipToGt])
  | cons c cs ih =>
    intro rest h
    unfold skipToGt at h
    by_cases hc : c = '>'
    · rw [if_pos hc] at h
      cases h
      simp
    · rw [if_neg hc] at h
      exact Nat.lt_succ_of_lt (ih rest h)

theorem matchTag_length (cs rest : List Char) (h : matchTag cs = some rest) :
    rest.length < cs.length + 1 := by
  cases cs with
  | nil => exact absurd h (by simp [matchTag])
  | cons c cs' =>
    rw [show matchTag (c :: cs') = if c = '>' then none else skipToGt cs' from rfl] at h
    by_cases hc : c = '>'
    · rw [if_pos hc] at h
      exact absurd h (by simp)
    · rw [if_neg hc] at h
      have := skipToGt_length cs' rest h
      simp only [List.length_cons]
      omega

def stripTags : List Char → List Char
  | [] => []
  | c :: cs =>
    if c = '<' then
      match h : matchTag cs with
      | some rest => ' ' :: stripTags rest
      | none => c :: stripTags cs
    else c :: stripTags cs
termination_by l => l.length
decreasing_by
  · simp only [List.length_cons]
    have := matchTag_length cs rest h
    omega
  · simp only [List.length_cons]
    omega
  · simp only [List.length_cons]
    omega

/-- Python `re.sub(r'\s+', ' ', s)`: every maximal whitespace run becomes one
space. -/
def collapseWs : List Char → List Char
  | [] => []
  | [c] => if isPyWs c then [' '] else [c]
  | c :: c' :: cs =>
    if isPyWs c && isPyWs c' then collapseWs (c' :: cs)
    else (if isPyWs c then ' ' else c) :: collapseWs (c' :: cs)

/-- `content_text`: HTML-stripped, whitespace-collapsed, stripped and cut to
2000 characters. -/
def contentText (content : String) : String :=
  (String.mk (pyStripChars (collapseWs (stripTags content.toList)))).take 2000

/-- Python `x or "Unknown"`. -/
def orUnknown (s : String) : String := if s = "" then "Unknown" else s

def triagePrompt (t : Ticket) (details : String) : String :=
  "Triage this support ticket. Even if you can\x27t gather telecom context, ALWAYS provide a useful summary.\n\nTicket: "
  ++ t.ticket_hash.getD "?"
  ++ "\nSubject: " ++ t.subject.getD "No subject"
  ++ "\nCompany: " ++ orUnknown (t.company_name.getD "Unknown")
  ++ "\nPriority: " ++ t.priority.getD "?"
  ++ "\nFrom: " ++ t.email.getD ""
  ++ "\n\nContent:\n" ++ contentText details
  ++ "\n\nRespond with this EXACT format (fill in the brackets):\n\n**Summary:** [One sentence: what does the customer need?]\n**Category:** [routing | voicemail | hardware | billing | access | spam | other]\n**Urgency:** [🔴 High - service down/urgent | 🟡 Medium - needs attention today | 🟢 Low - can wait | ⚪ None - spam/auto-reply]\n**Action:** [What should a tech do? Or \"Ignore - spam\" / \"Close - auto-reply\" if not actionable]\n\nRules:\n- ALWAYS fill in all 4 fields, even for spam/junk tickets\n- If it\x27s spam, marketing, or an auto-reply: Category=spam, Urgency=⚪ None, Action=Ignore\n- If it\x27s billing/invoice related: Category=billing, suggest forwarding to accounting\n- Keep total response under 400 chars\n- No extra commentary"

/-- Outcome of the `claude --print` subprocess call. -/
inductive ClaudeOutcome where
  | ran (exitCode : Nat) (stdout : String)
  | timeout
  | exn (msg : String)
  deriving Repr, DecidableEq

def triage_with_claude (claude : String → ClaudeOutcome) (t : Ticket)
    (details : String) : String :=
  match claude (triagePrompt t details) with
  | .ran code out =>
    if code = 0 ∧ pyStrip out ≠ "" then pyStrip out
    else generate_fallback_triage (t.subject.getD "No subject")
      (contentText details) ""
  | .timeout =>
    generate_fallback_triage (t.subject.getD "No subject")
      (contentText details) "timeout"
  | .exn msg =>
    generate_fallback_triage (t.subject.getD "No subject")
      (contentText details) (msg.take 50)

/-! ## Immediate triage (`triage_tickets_immediately`, lines 389-429)

A run is rendered as the list of its observable actions: the `Skipping ...`
log line, the `Triaging ...` log line, the detail fetch, and the single
destination post (whose delivery success is reported by the destination
collaborator and only logged by the source).  Python truthiness of the
optional string arguments is `truthy`. -/

inductive Dest where
  | slack
  | discord
  | stdout
  deriving Repr, DecidableEq

def truthy : Option String → Bool
  | none => false
  | some s => s != ""

/-- The destination selection of lines 421-429: Slack needs both a channel
and a token, otherwise the Discord webhook, otherwise local stdout. -/
def chooseDest (slack_channel slack_token discord_webhook : Option String) : Dest :=
  if truthy slack_channel && truthy slack_token then .slack
  else if truthy discord_webhook then .discord
  else .stdout

inductive Event where
  | skipLog (t : Ticket) (reason : String)
  | triaging (t : Ticket)
  | fetchDetail (t : Ticket)
  | post (d : Dest) (t : Ticket) (summary : String) (delivered : Bool)
  | batchAlert (title : String) (tickets : List Ticket) (delivered : Bool)
  deriving Repr, DecidableEq

structure TriageCfg where
  slack_channel : Option String
  slack_token : Option String
  discord_webhook : Option String
  deriving Repr, DecidableEq

/-- The external collaborators used while triaging: the ticket-detail fetch
(`None` = request failure, degraded to empty content), the Claude CLI, and
the per-post delivery outcome of the chosen chat destination. -/
structure Collab where
  fetch : String → Option String
  claude : String → ClaudeOutcome
  deliver : Dest → Ticket → Bool

def triageLoop (cb : Collab) (cfg : TriageCfg) :
    List Ticket → Nat → List Event
  | [], _ => []
  | t :: rest, count =>
    if 5 ≤ count then []
    else if (should_skip_ticket t).1 then
      .skipLog t (should_skip_ticket t).2 :: triageLoop cb cfg rest count
    else
      .triaging t ::
        ((if t.ticket_id ≠ "" then [Event.fetchDetail t] else []) ++
          (Event.post
              (chooseDest cfg.slack_channel cfg.slack_token cfg.discord_webhook) t
              (triage_with_claude cb.claude t
                (if t.ticket_id ≠ "" then (cb.fetch t.ticket_id).getD "" else ""))
              (cb.deliver
                (chooseDest cfg.slack_channel cfg.slack_token cfg.discord_webhook) t) ::
            triageLoop cb cfg rest (count + 1)))

def triage_tickets_immediately (cb : Collab) (cfg : TriageCfg)
    (tickets : List Ticket) : List Event :=
  triageLoop cb cfg (tickets.take 10) 0

def isPost : Event → Bool
  | .post _ _ _ _ => true
  | _ => false

def isSkipLog : Event → Bool
  | .skipLog _ _ => true
  | _ => false

def eventTicket : Event → Option Ticket
  | .skipLog t _ => some t
  | .triaging t => some t
  | .fetchDetail t => some t
  | .post _ t _ _ => some t
  | .batchAlert _ _ _ => none

/-- The tickets that received a full verdict and were posted, in order. -/
def postedTickets (evs : List Event) : List Ticket :=
  evs.filterMap (fun e =>
    match e with
    | .post _ t _ _ => some t
    | _ => none)

def destOf : Event → Option Dest
  | .post d _ _ _ => some d
  | _ => none

def isTriaging : Event → Bool
  | .triaging _ => true
  | _ => false

/-! ### Unfolding lemmas for the triage loop -/

theorem triageLoop_stop (cb : Collab) (cfg : TriageCfg) (t : Ticket)
    (rest : List Ticket) (count : Nat) (h5 : 5 ≤ count) :
    triageLoop cb cfg (t :: rest) count = [] := by
  unfold triageLoop
  rw [if_pos h5]

theorem triageLoop_skip (cb : Collab) (cfg : TriageCfg) (t : Ticket)
    (rest : List Ticket) (count : Nat) (h5 : ¬ 5 ≤ count)
    (hsk : (should_skip_ticket t).1 = true) :
    triageLoop cb cfg (t :: rest) count =
      .skipLog t (should_skip_ticket t).2 :: triageLoop cb cfg rest count := by
  conv_lhs => rw [triageLoop]
  rw [if_neg h5, if_pos hsk]

theorem triageLoop_go (cb : Collab) (cfg : TriageCfg) (t : Ticket)
    (rest : List Ticket) (count : Nat) (h5 : ¬ 5 ≤ count)
    (hsk : (should_skip_ticket t).1 = false) :
    triageLoop cb cfg (t :: rest) count =
      .triaging t ::
        ((if t.ticket_id ≠ "" then [Event.fetchDetail t] else []) ++
          (Event.post
              (chooseDest cfg.slack_channel cfg.slack_token cfg.discord_webhook) t
              (triage_with_claude cb.claude t
                (if t.ticket_id ≠ "" then (cb.fetch t.ticket_id).getD "" else ""))
              (cb.deliver
                (chooseDest cfg.slack_channel cfg.slack_token cfg.discord_webhook) t) ::
            triageLoop cb cfg rest (count + 1))) := by
  conv_lhs => rw [triageLoop]
  rw [if_neg h5, if_neg (by simp [hsk])]

theorem postedTickets_chunk (t : Ticket) (P : Prop) [Decidable P] (d : Dest)
    (s : String) (b : Bool) (l : List Event) :
    postedTickets (.triaging t ::
        ((if P then [Event.fetchDetail t] else []) ++ (Event.post d t s b :: l))) =
      t :: postedTickets l := by
  by_cases h : P <;> simp [postedTickets, h]

theorem skipFilter_chunk (t : Ticket) (P : Prop) [Decidable P] (d : Dest)
    (s : String) (b : Bool) (l : List Event) :
    (Event.triaging t ::
        ((if P then [Event.fetchDetail t] else []) ++ (Event.post d t s b :: l))).filter
        isSkipLog = l.filter isSkipLog := by
  by_cases h : P <;> simp [isSkipLog, h]

theorem mem_chunk (e : Event) (t : Ticket) (P : Prop) [Decidable P] (d : Dest)
    (s : String) (b : Bool) (l : List Event)
    (he : e ∈ Event.triaging t ::
        ((if P then [Event.fetchDetail t] else []) ++ (Event.post d t s b :: l))) :
    e = .triaging t ∨ e = .fetchDetail t ∨ e = .post d t s b ∨ e ∈ l := by
  by_cases h : P <;> simp [h, List.mem_append, List.mem_cons] at he <;> tauto

/-! ### C4: rate limiting -/

theorem triageLoop_posts_le (cb : Collab) (cfg : TriageCfg) (ts : List Ticket) :
    ∀ count : Nat,
      (postedTickets (triageLoop cb cfg ts count)).length ≤ 5 - count := by
  induction ts with
  | nil => intro count; simp [triageLoop, postedTickets]
  | cons t rest ih =>
    intro count
    by_cases h5 : 5 ≤ count
    · rw [triageLoop_stop cb cfg t rest count h5]
      simp [postedTickets]
    · cases hsk : (should_skip_ticket t).1 with
      | true =>
        rw [triageLoop_skip cb cfg t rest count h5 hsk]
        simpa [postedTickets] using ih count
      | false =>
        rw [triageLoop_go cb cfg t rest count h5 hsk, postedTickets_chunk]
        have := ih (count + 1)
        simp only [List.length_cons]
        omega

theorem triageLoop_mem (cb : Collab) (cfg : TriageCfg) (ts : List Ticket) :
    ∀ (count : Nat) (e : Event), e ∈ triageLoop cb cfg ts count →
      ∃ t ∈ ts, eventTicket e = some t := by
  induction ts with
  | nil => intro count e he; simp [triageLoop] at he
  | cons t rest ih =>
    intro count e he
    by_cases h5 : 5 ≤ count
    · rw [triageLoop_stop cb cfg t rest count h5] at he
      simp at he
    · cases hsk : (should_skip_ticket t).1 with
      | true =>
        rw [triageLoop_skip cb cfg t rest count h5 hsk] at he
        rcases List.mem_cons.mp he with he | he
        · exact ⟨t, List.mem_cons_self t rest, by rw [he]; rfl⟩
        · obtain ⟨u, hu, hev⟩ := ih count e he
          exact ⟨u, List.mem_cons_of_mem t hu, hev⟩
      | false =>
        rw [triageLoop_go cb cfg t rest count h5 hsk] at he
        rcases mem_chunk e t _ _ _ _ _ he with he | he | he | he
        · exact ⟨t, List.mem_cons_self t rest, by rw [he]; rfl⟩
        · exact ⟨t, List.mem_cons_self t rest, by rw [he]; rfl⟩
        · exact ⟨t, List.mem_cons_self t rest, by rw [he]; rfl⟩
        · obtain ⟨u, hu, hev⟩ := ih (count + 1) e he
          exact ⟨u, List.mem_cons_of_mem t hu, hev⟩

theorem triageLoop_nonskip (cb : Collab) (cfg : TriageCfg) (ts : List Ticket) :
    ∀ count : Nat, count ≤ 5 →
      (∀ t ∈ ts, (should_skip_ticket t).1 = false) →
      postedTickets (triageLoop cb cfg ts count) = ts.take (5 - count) ∧
      (triageLoop cb cfg ts count).filter isSkipLog = [] := by
  induction ts with
  | nil => intro count _ _; simp [triageLoop, postedTickets]
  | cons t rest ih =>
    intro count hc hall
    by_cases h5 : 5 ≤ count
    · have hc5 : count = 5 := Nat.le_antisymm hc h5
      subst hc5
      rw [triageLoop_stop cb cfg t rest 5 (Nat.le_refl 5)]
      simp [postedTickets]
    · have hsk := hall t (List.mem_cons_self t rest)
      rw [triageLoop_go cb cfg t rest count h5 hsk, postedTickets_chunk,
        skipFilter_chunk]
      obtain ⟨h1, h2⟩ := ih (count + 1) (by omega)
        (fun u hu => hall u (List.mem_cons_of_mem t hu))
      refine ⟨?_, h2⟩
      rw [h1, show (5 : Nat) - count = (5 - (count + 1)) + 1 from by omega,
        List.take_succ_cons]

/-- C4 (amended): per cycle at most 5 tickets receive a full verdict, only
the first 10 candidates are ever examined, and when 20 non-skipped tickets
arrive exactly the first 5 receive a verdict while the remaining 15 produce
no verdict and no log entry at all (the source emits no pending-review log;
the loop simply stops). -/
theorem rate_limit_bound (cb : Collab) (cfg : TriageCfg) (tickets : List Ticket) :
    (postedTickets (triage_tickets_immediately cb cfg tickets)).length ≤ 5 ∧
    (∀ e ∈ triage_tickets_immediately cb cfg tickets,
      ∃ t ∈ tickets.take 10, eventTicket e = some t) ∧
    ((∀ t ∈ tickets, (should_skip_ticket t).1 = false) →
      postedTickets (triage_tickets_immediately cb cfg tickets) = tickets.take 5 ∧
      (triage_tickets_immediately cb cfg tickets).filter isSkipLog = [] ∧
      (tickets.length = 20 →
        (postedTickets (triage_tickets_immediately cb cfg tickets)).length = 5)) := by
  refine ⟨?_, ?_, ?_⟩
  · simpa using triageLoop_posts_le cb cfg (tickets.take 10) 0
  · intro e he
    exact triageLoop_mem cb cfg (tickets.take 10) 0 e he
  · intro hall
    obtain ⟨h1, h2⟩ := triageLoop_nonskip cb cfg (tickets.take 10) 0 (by omega)
      (fun u hu => hall u (List.take_subset 10 tickets hu))
    have htake : (tickets.take 10).take (5 - 0) = tickets.take 5 := by
      rw [List.take_take]
      norm_num
    refine ⟨h1.trans htake, h2, ?_⟩
    intro hlen
    show (postedTickets (triageLoop cb cfg (tickets.take 10) 0)).length = 5
    rw [h1.trans htake, List.length_take, hlen]
    norm_num

/-- Concrete tickets for the C4 run: 20 distinct, none matching any skip
keyword. -/
def plainTicket (id : String) : Ticket :=
  ⟨id, none, some "hello", none, none, none, "100"⟩

def c4Tickets : List Ticket :=
  (List.range 20).map (fun i => plainTicket (String.mk [Char.ofNat (65 + i)]))

def c4Collab : Collab :=
  ⟨fun _ => none, fun _ => ClaudeOutcome.ran 0 "v", fun _ _ => true⟩

def c4Cfg : TriageCfg := ⟨none, none, none⟩

/-- C4, counterexample to the claim as stated: a cycle with 20 non-skipped
tickets gives exactly 5 verdicts, but nothing is "logged as pending review"
for the other 15 — the run's whole log has 15 entries, every one about the 5
triaged tickets, and contains no skip/pending entry. -/
theorem rate_limit_cx :
    c4Tickets.length = 20 ∧
    (c4Tickets.all (fun t => !(should_skip_ticket t).1)) = true ∧
    (postedTickets (triage_tickets_immediately c4Collab c4Cfg c4Tickets)).length = 5 ∧
    (triage_tickets_immediately c4Collab c4Cfg c4Tickets).length = 15 ∧
    (triage_tickets_immediately c4Collab c4Cfg c4Tickets).filter isSkipLog = [] ∧
    ((triage_tickets_immediately c4Collab c4Cfg c4Tickets).all
      (fun e => (eventTicket e).any (fun u => (c4Tickets.take 5).contains u))) = true := by
  decide

/-- Witness for `rate_limit_bound`: the hypotheses of its conditional parts
hold for the concrete 20-ticket run, and exactly the first 5 tickets are
posted. -/
theorem rate_limit_bound_witness :
    (postedTickets (triage_tickets_immediately c4Collab c4Cfg c4Tickets)).length ≤ 5 ∧
    postedTickets (triage_tickets_immediately c4Collab c4Cfg c4Tickets) =
      c4Tickets.take 5 ∧
    (postedTickets (triage_tickets_immediately c4Collab c4Cfg c4Tickets)).length = 5 :=
  ⟨(rate_limit_bound c4Collab c4Cfg c4Tickets).1,
   ((rate_limit_bound c4Collab c4Cfg c4Tickets).2.2 (by decide)).1,
   ((rate_limit_bound c4Collab c4Cfg c4Tickets).2.2 (by decide)).2.2 (by decide)⟩

/-! ### C5: billing tickets are skipped before any triage -/

/-- Every event the loop emits about a ticket the skip filter rejects is the
skip log line — never a fetch, a verdict or a post. -/
theorem skipped_only_skipLog (cb : Collab) (cfg : TriageCfg) (ts : List Ticket) :
    ∀ (count : Nat) (e : Event), e ∈ triageLoop cb cfg ts count →
      ∀ t : Ticket, eventTicket e = some t → (should_skip_ticket t).1 = true →
        e = .skipLog t (should_skip_ticket t).2 := by
  induction ts with
  | nil => intro count e he; simp [triageLoop] at he
  | cons t rest ih =>
    intro count e he u hev hsku
    by_cases h5 : 5 ≤ count
    · rw [triageLoop_stop cb cfg t rest count h5] at he
      simp at he
    · cases hsk : (should_skip_ticket t).1 with
      | true =>
        rw [triageLoop_skip cb cfg t rest count h5 hsk] at he
        rcases List.mem_cons.mp he with he | he
        · subst he
          simp only [eventTicket, Option.some.injEq] at hev
          subst hev
          rfl
        · exact ih count e he u hev hsku
      | false =>
        rw [triageLoop_go cb cfg t rest count h5 hsk] at he
        rcases mem_chunk e t _ _ _ _ _ he with he | he | he | he
        · subst he
          simp only [eventTicket, Option.some.injEq] at hev
          subst hev
          exact absurd hsku (by simp [hsk])
        · subst he
          simp only [eventTicket, Option.some.injEq] at hev
          subst hev
          exact absurd hsku (by simp [hsk])
        · subst he
          simp only [eventTicket, Option.some.injEq] at hev
          subst hev
          exact absurd hsku (by simp [hsk])
        · exact ih (count + 1) e he u hev hsku

/-- C5: a ticket whose subject contains a billing keyword is rejected by the
skip filter with reason `billing/invoice`, and in any triage run the only
event ever emitted for it is the skip log — no detail fetch, no verdict, no
post to any destination — whatever its body or other fields contain. -/
theorem billing_skip_precedence (t : Ticket) (kw : String)
    (hkw : kw ∈ billing_keywords)
    (hsub : containsSub (pyLower (t.subject.getD "")) kw = true) :
    should_skip_ticket t = (true, "billing/invoice") ∧
    ∀ (cb : Collab) (cfg : TriageCfg) (tickets : List Ticket) (e : Event),
      e ∈ triage_tickets_immediately cb cfg tickets →
      eventTicket e = some t → e = .skipLog t "billing/invoice" := by
  have hbill : anyKw billing_keywords (pyLower (t.subject.getD "")) = true :=
    List.any_eq_true.mpr ⟨kw, hkw, hsub⟩
  have hskip : should_skip_ticket t = (true, "billing/invoice") := by
    unfold should_skip_ticket
    rw [if_pos hbill]
  refine ⟨hskip, ?_⟩
  intro cb cfg tickets e he hev
  have := skipped_only_skipLog cb cfg (tickets.take 10) 0 e he t hev
    (by rw [hskip])
  rwa [hskip] at this

/-- Witness for `billing_skip_precedence`: the spec's scenario ticket,
subject `"Invoice #552 attached - please pay now"`, whose body would even
match an urgent keyword; the skip filter fires with `billing/invoice`. -/
theorem billing_skip_precedence_witness :
    ("invoice" ∈ billing_keywords ∧
      containsSub (pyLower ((⟨"9", some "ABC-9",
        some "Invoice #552 attached - please pay now", some "c@x.com", none,
        some "High", "100"⟩ : Ticket).subject.getD "")) "invoice" = true) ∧
    (should_skip_ticket ⟨"9", some "ABC-9",
        some "Invoice #552 attached - please pay now", some "c@x.com", none,
        some "High", "100"⟩ = (true, "billing/invoice") ∧
      ∀ (cb : Collab) (cfg : TriageCfg) (tickets : List Ticket) (e : Event),
        e ∈ triage_tickets_immediately cb cfg tickets →
        eventTicket e = some ⟨"9", some "ABC-9",
          some "Invoice #552 attached - please pay now", some "c@x.com", none,
          some "High", "100"⟩ →
        e = .skipLog ⟨"9", some "ABC-9",
          some "Invoice #552 attached - please pay now", some "c@x.com", none,
          some "High", "100"⟩ "billing/invoice") :=
  ⟨⟨by decide, by decide⟩,
    billing_skip_precedence _ "invoice" (by decide) (by decide)⟩

/-! ### C8: a single destination per run -/

theorem triageLoop_dest (cb : Collab) (cfg : TriageCfg) (ts : List Ticket) :
    ∀ (count : Nat) (e : Event), e ∈ triageLoop cb cfg ts count →
      ∀ d : Dest, destOf e = some d →
        d = chooseDest cfg.slack_channel cfg.slack_token cfg.discord_webhook := by
  induction ts with
  | nil => intro count e he; simp [triageLoop] at he
  | cons t rest ih =>
    intro count e he d hd
    by_cases h5 : 5 ≤ count
    · rw [triageLoop_stop cb cfg t rest count h5] at he
      simp at he
    · cases hsk : (should_skip_ticket t).1 with
      | true =>
        rw [triageLoop_skip cb cfg t rest count h5 hsk] at he
        rcases List.mem_cons.mp he with he | he
        · subst he; simp [destOf] at hd
        · exact ih count e he d hd
      | false =>
        rw [triageLoop_go cb cfg t rest count h5 hsk] at he
        rcases mem_chunk e t _ _ _ _ _ he with he | he | he | he
        · subst he; simp [destOf] at hd
        · subst he; simp [destOf] at hd
        · subst he
          simp only [destOf, Option.some.injEq] at hd
          exact hd.symm
        · exact ih (count + 1) e he d hd

theorem triageLoop_post_per_triage (cb : Collab) (cfg : TriageCfg)
    (ts : List Ticket) :
    ∀ count : Nat,
      ((triageLoop cb cfg ts count).filter isPost).length =
        ((triageLoop cb cfg ts count).filter isTriaging).length := by
  induction ts with
  | nil => intro count; simp [triageLoop]
  | cons t rest ih =>
    intro count
    by_cases h5 : 5 ≤ count
    · rw [triageLoop_stop cb cfg t rest count h5]
      simp
    · cases hsk : (should_skip_ticket t).1 with
      | true =>
        rw [triageLoop_skip cb cfg t rest count h5 hsk]
        simpa [isPost, isTriaging] using ih count
      | false =>
        rw [triageLoop_go cb cfg t rest count h5 hsk]
        by_cases hid : t.ticket_id ≠ "" <;>
          simp [isPost, isTriaging, hid, ih (count + 1)]

/-- C8: every post of a triage run goes to the single destination selected by
configuration precedence — Slack bot-token channel (needs both channel and
token) over Discord webhook over local stdout — each triaged ticket is posted
exactly once, and the other destinations receive nothing. -/
theorem single_destination (cb : Collab) (cfg : TriageCfg) (tickets : List Ticket) :
    (∀ e ∈ triage_tickets_immediately cb cfg tickets, ∀ d : Dest,
      destOf e = some d →
      d = chooseDest cfg.slack_channel cfg.slack_token cfg.discord_webhook) ∧
    ((triage_tickets_immediately cb cfg tickets).filter isPost).length =
      ((triage_tickets_immediately cb cfg tickets).filter isTriaging).length ∧
    ((truthy cfg.slack_channel && truthy cfg.slack_token) = true →
      chooseDest cfg.slack_channel cfg.slack_token cfg.discord_webhook = .slack) ∧
    ((truthy cfg.slack_channel && truthy cfg.slack_token) = false →
      truthy cfg.discord_webhook = true →
      chooseDest cfg.slack_channel cfg.slack_token cfg.discord_webhook = .discord) ∧
    ((truthy cfg.slack_channel && truthy cfg.slack_token) = false →
      truthy cfg.discord_webhook = false →
      chooseDest cfg.slack_channel cfg.slack_token cfg.discord_webhook = .stdout) := by
  refine ⟨?_, ?_, ?_, ?_, ?_⟩
  · intro e he d hd
    exact triageLoop_dest cb cfg (tickets.take 10) 0 e he d hd
  · exact triageLoop_post_per_triage cb cfg (tickets.take 10) 0
  · intro h; simp [chooseDest, h]
  · intro h1 h2; simp [chooseDest, h1, h2]
  · intro h1 h2; simp [chooseDest, h1, h2]

/-- Witness for `single_destination`: with a Slack channel and token both
configured (and a webhook too), the run posts to Slack. -/
theorem single_destination_witness :
    (∀ e ∈ triage_tickets_immediately c4Collab
        ⟨some "htel-team", some "xoxb-1", some "https://hook"⟩ c4Tickets,
      ∀ d : Dest, destOf e = some d →
        d = chooseDest (some "htel-team") (some "xoxb-1") (some "https://hook")) ∧
    ((truthy (some "htel-team") && truthy (some "xoxb-1")) = true →
      chooseDest (some "htel-team") (some "xoxb-1") (some "https://hook") = .slack) ∧
    chooseDest (some "htel-team") (some "xoxb-1") (some "https://hook") = .slack :=
  ⟨(single_destination c4Collab ⟨some "htel-team", some "xoxb-1", some "https://hook"⟩
      c4Tickets).1,
   (single_destination c4Collab ⟨some "htel-team", some "xoxb-1", some "https://hook"⟩
      c4Tickets).2.2.1,
   (single_destination c4Collab ⟨some "htel-team", some "xoxb-1", some "https://hook"⟩
      c4Tickets).2.2.1 (by decide)⟩

/-! ## Credential resolution (`get_credentials`, lines 28-59)

The `pass` secret store is a function from lookup path to the stdout of a
successful `pass` call (`none` = `CalledProcessError`).  Python's
`line.split("=", 1)` and `.split("\n")` are rendered with `splitOnChar`;
`value.strip().strip('"')` with `pyStripChars` and `stripQuotesChars`. -/

/-- Python `s.split(sep)` for a one-character separator. -/
def splitOnChar (sep : Char) : List Char → List (List Char)
  | [] => [[]]
  | c :: cs =>
    if c == sep then [] :: splitOnChar sep cs
    else
      match splitOnChar sep cs with
      | [] => [[c]]
      | h :: t => (c :: h) :: t

/-- Python `s.strip('"')`. -/
def stripQuotesChars (l : List Char) : List Char :=
  ((l.dropWhile (· == '"')).reverse.dropWhile (· == '"')).reverse

/-- `"=".join(parts)`: rebuilds the remainder of `line.split("=", 1)`. -/
def joinEq : List (List Char) → List Char
  | [] => []
  | [p] => p
  | p :: ps => p ++ '=' :: joinEq ps

structure Credentials where
  token : String
  url : String
  deriving Repr, DecidableEq

/-- One line of the loop `for line in result.stdout.strip().split("\n")`:
lines with an `=` that are not comments contribute `creds[key.strip()] =
value.strip().strip('"')`. -/
def parseCredLine (creds : List (String × String)) (lineChars : List Char) :
    List (String × String) :=
  if containsSub (String.mk lineChars) "=" &&
      !(startsWithChars "#".toList (pyStripChars lineChars)) then
    match splitOnChar '=' lineChars with
    | [] => creds
    | key :: restParts =>
      dset creds (String.mk (pyStripChars key))
        (String.mk (stripQuotesChars (pyStripChars (joinEq restParts))))
  else creds

def parseCreds (stdout : String) : List (String × String) :=
  (splitOnChar '\n' (pyStripChars stdout.toList)).foldl parseCredLine []

def defaultVisionUrl : String := "https://clients.sipcapturer.com/api/index.php"

/-- The token key after normalization: `VISION_TOKEN` is copied to `token`
and then a literal `token` key overwrites it, so the lowercase key wins. -/
def credToken (creds : List (String × String)) : Option String :=
  match dget creds "token" with
  | some v => some v
  | none => dget creds "VISION_TOKEN"

/-- The normalization block: normalized token, defaulted `url`, and the
result is kept only when the token is truthy. -/
def normalizeCreds (creds : List (String × String)) : Option Credentials :=
  match credToken creds with
  | some v =>
    if v ≠ "" then some ⟨v, (dget creds "url").getD defaultVisionUrl⟩
    else none
  | none => none

def credPaths (profile : String) : List String :=
  ["vision/" ++ profile, profile ++ "/visionhelpdesk/env"]

def get_credentials_loop (passStore : String → Option String) :
    List String → Option Credentials
  | [] => none
  | p :: rest =>
    match passStore p with
    | none => get_credentials_loop passStore rest
    | some out =>
      match normalizeCreds (parseCreds out) with
      | some c => some c
      | none => get_credentials_loop passStore rest

def get_credentials (passStore : String → Option String) (profile : String) :
    Except String Credentials :=
  match get_credentials_loop passStore (credPaths profile) with
  | some c => .ok c
  | none => .error ("Could not load credentials for profile " ++ profile)

/-- Modelled from the spec: the spec (§2, §4.1, §6) describes credential
resolution "from a secret store with an environment-variable fallback", with
fallback keys "namespaced by profile"; no such fallback exists in the
source's `get_credentials`, which raises as soon as both secret-store paths
fail.  This definition follows the spec's words for comparison: when no
secret-store path yields credentials, the token and URL are read from
profile-namespaced environment variables. -/
def resolve_with_env_fallback (passStore : String → Option String)
    (env : String → Option String) (profile : String) :
    Except String Credentials :=
  match get_credentials_loop passStore (credPaths profile) with
  | some c => .ok c
  | none =>
    match env ("VISION_TOKEN_" ++ profile) with
    | some tok =>
      if tok ≠ "" then
        .ok ⟨tok, (env ("VISION_URL_" ++ profile)).getD defaultVisionUrl⟩
      else .error ("Could not load credentials for profile " ++ profile)
    | none => .error ("Could not load credentials for profile " ++ profile)

/-- C7, counterexample to the environment-fallback clause: when every
secret-store path fails, the source's resolver raises `CredentialsUnavailable`
outright — it never consults environment variables — while the spec-modelled
resolver with the same failing store and a populated environment succeeds. -/
theorem credentials_no_env_fallback_cx :
    get_credentials (fun _ => none) "20859" =
      .error "Could not load credentials for profile 20859" ∧
    resolve_with_env_fallback (fun _ => none)
      (fun k => if k = "VISION_TOKEN_20859" then some "tok123" else none) "20859" =
      .ok ⟨"tok123", defaultVisionUrl⟩ := by
  constructor <;> rfl

theorem normalizeCreds_token (creds : List (String × String)) (c : Credentials)
    (h : normalizeCreds creds = some c) : c.token ≠ "" := by
  unfold normalizeCreds at h
  cases ht : credToken creds with
  | none =>
    simp only [ht] at h
    exact Option.noConfusion h
  | some v =>
    simp only [ht] at h
    by_cases hne : v ≠ ""
    · rw [if_pos hne] at h
      simp only [Option.some.injEq] at h
      rw [← h]
      exact hne
    · rw [if_neg hne] at h
      exact Option.noConfusion h

theorem get_credentials_loop_token (passStore : String → Option String) :
    ∀ (paths : List String) (c : Credentials),
      get_credentials_loop passStore paths = some c → c.token ≠ "" := by
  intro paths
  induction paths with
  | nil => intro c h; exact absurd h (by simp [get_credentials_loop])
  | cons p rest ih =>
    intro c h
    unfold get_credentials_loop at h
    cases hp : passStore p with
    | none =>
      simp only [hp] at h
      exact ih c h
    | some out =>
      simp only [hp] at h
      cases hn : normalizeCreds (parseCreds out) with
      | none =>
        simp only [hn] at h
        exact ih c h
      | some cn =>
        simp only [hn, Option.some.injEq] at h
        rw [← h]
        exact normalizeCreds_token _ _ hn

/-- C7 (amended): credential resolution tries the two secret-store paths in
order, parses `KEY=value` lines ignoring comment and non-`KEY=value` lines,
prefers the lowercase `token` key and otherwise normalizes the legacy
uppercase `VISION_TOKEN` key, returns the first result with a non-empty
token, and fails with `CredentialsUnavailable` exactly when both paths yield
nothing — there is no environment-variable fallback. -/
theorem credentials_resolution (passStore : String → Option String)
    (profile : String) :
    (∀ c, get_credentials passStore profile = .ok c → c.token ≠ "") ∧
    (∀ out c, passStore ("vision/" ++ profile) = some out →
      normalizeCreds (parseCreds out) = some c →
      get_credentials passStore profile = .ok c) ∧
    (∀ out c,
      (passStore ("vision/" ++ profile) = none ∨
        ∃ o1, passStore ("vision/" ++ profile) = some o1 ∧
          normalizeCreds (parseCreds o1) = none) →
      passStore (profile ++ "/visionhelpdesk/env") = some out →
      normalizeCreds (parseCreds out) = some c →
      get_credentials passStore profile = .ok c) ∧
    ((passStore ("vision/" ++ profile) = none ∨
        ∃ o1, passStore ("vision/" ++ profile) = some o1 ∧
          normalizeCreds (parseCreds o1) = none) →
      (passStore (profile ++ "/visionhelpdesk/env") = none ∨
        ∃ o2, passStore (profile ++ "/visionhelpdesk/env") = some o2 ∧
          normalizeCreds (parseCreds o2) = none) →
      get_credentials passStore profile =
        .error ("Could not load credentials for profile " ++ profile)) ∧
    (∀ creds v, dget creds "token" = none → dget creds "VISION_TOKEN" = some v →
      v ≠ "" →
      normalizeCreds creds = some ⟨v, (dget creds "url").getD defaultVisionUrl⟩) ∧
    (∀ creds lineChars,
      startsWithChars "#".toList (pyStripChars lineChars) = true →
      parseCredLine creds lineChars = creds) ∧
    (∀ creds lineChars, containsSub (String.mk lineChars) "=" = false →
      parseCredLine creds lineChars = creds) := by
  refine ⟨?_, ?_, ?_, ?_, ?_, ?_, ?_⟩
  · intro c h
    unfold get_credentials at h
    cases hl : get_credentials_loop passStore (credPaths profile) with
    | none => rw [hl] at h; exact Except.noConfusion h
    | some cl =>
      rw [hl] at h
      simp only [Except.ok.injEq] at h
      rw [← h]
      exact get_credentials_loop_token passStore (credPaths profile) cl hl
  · intro out c h1 hn
    unfold get_credentials credPaths get_credentials_loop
    simp only [h1, hn]
  · intro out c h1 h2 hn
    unfold get_credentials credPaths get_credentials_loop
    rcases h1 with h1 | ⟨o1, ho1, hno1⟩
    · simp only [h1]
      unfold get_credentials_loop
      simp only [h2, hn]
    · simp only [ho1, hno1]
      unfold get_credentials_loop
      simp only [h2, hn]
  · intro h1 h2
    have htail : get_credentials_loop passStore [profile ++ "/visionhelpdesk/env"] =
        none := by
      unfold get_credentials_loop
      rcases h2 with h2 | ⟨o2, ho2, hno2⟩
      · simp only [h2]
        rfl
      · simp only [ho2, hno2]
        rfl
    unfold get_credentials credPaths get_credentials_loop
    rcases h1 with h1 | ⟨o1, ho1, hno1⟩
    · simp only [h1, htail]
    · simp only [ho1, hno1, htail]
  · intro creds v hg hv hne
    unfold normalizeCreds credToken
    simp only [hg, hv]
    rw [if_pos hne]
  · intro creds lineChars h
    unfold parseCredLine
    rw [if_neg (by rw [h]; simp)]
  · intro creds lineChars h
    unfold parseCredLine
    rw [if_neg (by rw [h]; simp)]

/-- The concrete secret store of the witness: the first path fails, the
second returns a comment, a legacy uppercase token line and a url line. -/
def c7Store : String → Option String :=
  fun p =>
    if p = "20859/visionhelpdesk/env" then
      some "# vision creds\nVISION_TOKEN=\x22abc123\x22\nurl=https://example.test/api\n"
    else none

/-- Witness for `credentials_resolution`: second-path fallback, comment
skipping, quote stripping and uppercase-key normalization all fire on the
concrete store, resolving to token `abc123`. -/
theorem credentials_resolution_witness :
    (c7Store ("vision/" ++ "20859") = none ∧
      c7Store ("20859" ++ "/visionhelpdesk/env") =
        some "# vision creds\nVISION_TOKEN=\x22abc123\x22\nurl=https://example.test/api\n" ∧
      normalizeCreds (parseCreds
        "# vision creds\nVISION_TOKEN=\x22abc123\x22\nurl=https://example.test/api\n") =
        some ⟨"abc123", "https://example.test/api"⟩) ∧
    get_credentials c7Store "20859" = .ok ⟨"abc123", "https://example.test/api"⟩ :=
  ⟨⟨by decide, by decide, by decide⟩,
    (credentials_resolution c7Store "20859").2.2.1
      "# vision creds\nVISION_TOKEN=\x22abc123\x22\nurl=https://example.test/api\n"
      ⟨"abc123", "https://example.test/api"⟩ (Or.inl (by decide)) (by decide)
      (by decide)⟩

/-! ## State persistence (`save_state`, lines 90-92)

The filesystem is a set of existing directories plus a map from file path to
content, paths being component lists.  `Path.write_text` opens the file for
writing, which raises `FileNotFoundError` when the parent directory does not
exist; JSON serialization is abstracted as the `encode` parameter. -/

structure FS where
  dirs : List (List String)
  files : List (List String × String)
  deriving Repr, DecidableEq

/-- `Path(p).write_text(content)`: succeeds only when the parent directory
exists; it never creates directories. -/
def writeText (fs : FS) (path : List String) (content : String) :
    Except String FS :=
  if path.dropLast ∈ fs.dirs then
    .ok ⟨fs.dirs, dset fs.files path content⟩
  else .error "FileNotFoundError"

/-- `save_state(state, state_file)` is a single `write_text` of the encoded
state; there is no `mkdir` call. -/
def save_state (encode : WatcherState → String) (state : WatcherState)
    (state_file : List String) (fs : FS) : Except String FS :=
  writeText fs state_file (encode state)

/-- C9, counterexample to the claim as stated: saving to a path whose parent
directory does not exist does not create the directory — the write simply
fails with `FileNotFoundError`, because `save_state` is a bare `write_text`
with no `mkdir`. -/
theorem save_state_no_mkdir_cx :
    save_state (fun _ => "\x7bseen_tickets: \x7d") ⟨[], none⟩
      ["home", "state.json"] ⟨[], []⟩ = .error "FileNotFoundError" := by
  rfl

/-- C9 (amended): `save_state` never creates directories.  Writing to a path
whose parent directory is missing fails and leaves the filesystem untouched;
on success the full encoded state document is stored at the path and the
directory set is unchanged. -/
theorem save_state_behavior (encode : WatcherState → String) (st : WatcherState)
    (path : List String) (fs : FS) :
    (path.dropLast ∉ fs.dirs →
      save_state encode st path fs = .error "FileNotFoundError") ∧
    (∀ fs', save_state encode st path fs = .ok fs' →
      fs'.dirs = fs.dirs ∧ dget fs'.files path = some (encode st)) := by
  constructor
  · intro h
    unfold save_state writeText
    rw [if_neg h]
  · intro fs' h
    unfold save_state writeText at h
    by_cases hp : path.dropLast ∈ fs.dirs
    · rw [if_pos hp] at h
      simp only [Except.ok.injEq] at h
      rw [← h]
      exact ⟨rfl, dget_dset_same _ _ _⟩
    · rw [if_neg hp] at h
      exact Except.noConfusion h

/-- Witness for `save_state_behavior`: a filesystem without the parent
directory (write fails), and one with it (write succeeds, directories
unchanged). -/
theorem save_state_behavior_witness :
    ((["home", "state.json"] : List String).dropLast ∉ (⟨[], []⟩ : FS).dirs ∧
      save_state (fun _ => "doc") ⟨[], none⟩ ["home", "state.json"] ⟨[], []⟩ =
        .error "FileNotFoundError") ∧
    (save_state (fun _ => "doc") ⟨[], none⟩ ["home", "state.json"]
        ⟨[["home"]], []⟩ = .ok ⟨[["home"]], [(["home", "state.json"], "doc")]⟩ ∧
      (⟨[["home"]], [(["home", "state.json"], "doc")]⟩ : FS).dirs =
        (⟨[["home"]], []⟩ : FS).dirs ∧
      dget ((⟨[["home"]], [(["home", "state.json"], "doc")]⟩ : FS).files)
        ["home", "state.json"] = some ((fun _ => "doc") (⟨[], none⟩ : WatcherState))) :=
  ⟨⟨by decide,
    (save_state_behavior (fun _ => "doc") ⟨[], none⟩ ["home", "state.json"]
      ⟨[], []⟩).1 (by decide)⟩,
   by rfl,
   (save_state_behavior (fun _ => "doc") ⟨[], none⟩ ["home", "state.json"]
      ⟨[["home"]], []⟩).2 ⟨[["home"]], [(["home", "state.json"], "doc")]⟩
      (by rfl)⟩

/-! ## Run controller (`main`, lines 481-557)

`main` with the I/O made explicit.  The environment carries the outcome of
credential resolution and of the upstream `get_tickets` query (both raised
inside `check_tickets` via `api_request` and caught by the single
`try/except` of lines 503-507), the triage collaborators, and the delivery
outcome of batch webhook alerts (swallowed inside `send_discord_alert`).
The outcome records the exit code, the state written by `save_state` (`none`
when the run aborted before saving) and the emitted events. -/

structure MainEnv where
  credsResult : Except String Credentials
  queryResult : Except String (List Ticket)
  cb : Collab
  batchDeliver : Bool

/-- `api_request("get_tickets", ...)`: resolves credentials first, then
issues the HTTP query; either failure raises. -/
def api_get_tickets (env : MainEnv) : Except String (List Ticket) := do
  let _ ← env.credsResult
  env.queryResult

/-- `check_tickets` as called from `main`, with its two exception sources
explicit. -/
def check_tickets_run (env : MainEnv) (state : WatcherState) (now : String) :
    Except String (List Ticket × List Ticket × WatcherState) := do
  let tickets ← api_get_tickets env
  pure (check_tickets state tickets now)

/-- `filter_important`, lines 476-478. -/
def filter_important (ts : List Ticket) : List Ticket :=
  ts.filter (fun t => t.priority == some "High" || t.priority == some "Urgent")

structure MainArgs where
  profile : String
  important_only : Bool
  triage : Bool
  jsonOut : Bool
  webhook_url : Option String
  slack_channel : Option String
  slack_token : Option String
  deriving Repr, DecidableEq

structure MainOutcome where
  exitCode : Nat
  saved : Option WatcherState
  events : List Event
  deriving Repr, DecidableEq

def formatNewTitle (n : Nat) : String := "🎫 " ++ toString n ++ " New Ticket(s)"

def formatUpdTitle (n : Nat) : String :=
  "🔄 " ++ toString n ++ " High-Priority Update(s)"

/-- One run of `main` after argument parsing: load state is the caller's
`state0`; on any exception from `check_tickets` print and `sys.exit(1)`
without saving; otherwise filter, save, then either JSON output, immediate
triage, basic webhook alerts (empty batches are not sent) or plain printing;
both final paths call `sys.exit(0)`. -/
def main_run (env : MainEnv) (args : MainArgs) (state0 : WatcherState)
    (now : String) : MainOutcome :=
  match check_tickets_run env state0 now with
  | .error _ => ⟨1, none, []⟩
  | .ok (newT0, updT0, state') =>
    let newT := if args.important_only then filter_important newT0 else newT0
    let updT := if args.important_only then filter_important updT0 else updT0
    if args.jsonOut then ⟨0, some state', []⟩
    else if args.triage ∧ newT ≠ [] then
      ⟨0, some state',
        triage_tickets_immediately env.cb
          ⟨args.slack_channel, args.slack_token, args.webhook_url⟩ newT⟩
    else if truthy args.webhook_url then
      ⟨0, some state',
        (if newT ≠ [] then
          [Event.batchAlert (formatNewTitle newT.length) newT env.batchDeliver]
        else []) ++
        (if filter_important updT ≠ [] then
          [Event.batchAlert (formatUpdTitle (filter_important updT).length)
            (filter_important updT) env.batchDeliver]
        else [])⟩
    else ⟨0, some state', []⟩

/-- C6: a credential-resolution or upstream-query failure aborts the run with
exit code 1 and without writing the state file; when both succeed the run
always exits 0 and persists the mutated state, whatever the triage
collaborator or any delivery outcome did (those failures are swallowed where
they occur). -/
theorem exit_signal_policy (env : MainEnv) (args : MainArgs)
    (state0 : WatcherState) (now : String) :
    ((∃ msg, env.credsResult = .error msg) ∨
      (∃ msg, env.queryResult = .error msg) →
      (main_run env args state0 now).exitCode = 1 ∧
      (main_run env args state0 now).saved = none) ∧
    (∀ creds tickets, env.credsResult = .ok creds →
      env.queryResult = .ok tickets →
      (main_run env args state0 now).exitCode = 0 ∧
      (main_run env args state0 now).saved =
        some (check_tickets state0 tickets now).2.2) := by
  constructor
  · intro h
    have habort : ∃ msg, check_tickets_run env state0 now = .error msg := by
      rcases h with ⟨msg, hmsg⟩ | ⟨msg, hmsg⟩
      · refine ⟨msg, ?_⟩
        unfold check_tickets_run api_get_tickets
        rw [hmsg]
        rfl
      · cases hc : env.credsResult with
        | error m =>
          refine ⟨m, ?_⟩
          unfold check_tickets_run api_get_tickets
          rw [hc]
          rfl
        | ok creds =>
          refine ⟨msg, ?_⟩
          unfold check_tickets_run api_get_tickets
          rw [hc, hmsg]
          rfl
    obtain ⟨msg, habort⟩ := habort
    unfold main_run
    rw [habort]
    exact ⟨rfl, rfl⟩
  · intro creds tickets hc hq
    have hok : check_tickets_run env state0 now =
        .ok (check_tickets state0 tickets now) := by
      unfold check_tickets_run api_get_tickets
      rw [hc, hq]
      rfl
    unfold main_run
    rw [hok, show check_tickets state0 tickets now =
      ((check_tickets state0 tickets now).1, (check_tickets state0 tickets now).2.1,
        (check_tickets state0 tickets now).2.2) from rfl]
    cases hj : args.jsonOut with
    | true => exact ⟨rfl, rfl⟩
    | false =>
      by_cases ht : args.triage ∧
          (if args.important_only then
            filter_important (check_tickets state0 tickets now).1
          else (check_tickets state0 tickets now).1) ≠ []
      · simp only [if_pos ht]
        exact ⟨rfl, rfl⟩
      · simp only [if_neg ht]
        by_cases hw : truthy args.webhook_url = true
        · simp only [if_pos hw]
          exact ⟨rfl, rfl⟩
        · simp only [if_neg hw]
          exact ⟨rfl, rfl⟩

def c6ArgsD : MainArgs := ⟨"20859", false, true, false, some "https://hook",
  none, none⟩

def c6EnvFail : MainEnv :=
  ⟨.ok ⟨"tok", "https://api"⟩, .error "HTTP 500", c4Collab, true⟩

def c6EnvOk : MainEnv :=
  ⟨.ok ⟨"tok", "https://api"⟩,
    .ok [⟨"1", none, some "no dial tone", none, none, some "Urgent", "100"⟩],
    c4Collab, false⟩

/-- Witness for `exit_signal_policy`: an upstream HTTP failure gives exit
code 1 with no state written; the successful environment (even with a failing
batch delivery) exits 0 and persists the mutated state. -/
theorem exit_signal_policy_witness :
    ((main_run c6EnvFail c6ArgsD ⟨[], none⟩ "n").exitCode = 1 ∧
      (main_run c6EnvFail c6ArgsD ⟨[], none⟩ "n").saved = none) ∧
    ((main_run c6EnvOk c6ArgsD ⟨[], none⟩ "n").exitCode = 0 ∧
      (main_run c6EnvOk c6ArgsD ⟨[], none⟩ "n").saved =
        some (check_tickets ⟨[], none⟩
          [⟨"1", none, some "no dial tone", none, none, some "Urgent", "100"⟩]
          "n").2.2) :=
  ⟨(exit_signal_policy c6EnvFail c6ArgsD ⟨[], none⟩ "n").1
      (Or.inr ⟨"HTTP 500", rfl⟩),
   (exit_signal_policy c6EnvOk c6ArgsD ⟨[], none⟩ "n").2 ⟨"tok", "https://api"⟩
      [⟨"1", none, some "no dial tone", none, none, some "Urgent", "100"⟩]
      rfl rfl⟩

end VisionWatcher
